import Mathlib

/-!
Verification of the message-triggered notification relay bot
(`config.py`, `bot_handlers.py`, `main.py`).

The Python code is shallowly embedded: every function below is a direct
translation of the corresponding source function.  Python strings are
Lean `String`s (lists of unicode scalar values); Python exceptions are
modelled with `Except`; the injected chat-client capabilities
(`reply_text`, `bot.send_message`) are explicit function parameters; the
uniform random pick of `random.choice` is modelled by an arbitrary index
reduced modulo the pool length.
-/

set_option linter.unusedVariables false

/-! ## Python string primitives -/

/-- The code points of the characters recognized as whitespace by
Python `str.strip()` / `str.isspace()`. -/
def pySpaceCodes (n : Nat) : Prop :=
  n = 9 ∨ n = 10 ∨ n = 11 ∨ n = 12 ∨ n = 13 ∨
  n = 28 ∨ n = 29 ∨ n = 30 ∨ n = 31 ∨ n = 32 ∨
  n = 133 ∨ n = 160 ∨ n = 5760 ∨
  (8192 ≤ n ∧ n ≤ 8202) ∨
  n = 8232 ∨ n = 8233 ∨ n = 8239 ∨ n = 8287 ∨ n = 12288

instance (n : Nat) : Decidable (pySpaceCodes n) := by unfold pySpaceCodes; infer_instance

/-- Whitespace as recognized by Python `str.strip()` / `str.isspace()`
(ASCII whitespace, the C1 control separators, and the Unicode space
separators). -/
def pyIsSpace (c : Char) : Bool := decide (pySpaceCodes c.toNat)

/-- Python `str.lower()` on one character, modelled for the alphabets the
program uses: ASCII `A`-`Z` and Cyrillic `А`-`Я`/`Ё`.  All other
characters are returned unchanged. -/
def pyCharLower (c : Char) : Char :=
  if 65 ≤ c.toNat ∧ c.toNat ≤ 90 then Char.ofNat (c.toNat + 32)
  else if 1040 ≤ c.toNat ∧ c.toNat ≤ 1071 then Char.ofNat (c.toNat + 32)
  else if c.toNat = 1025 then Char.ofNat 1105
  else c

/-- Python `str.upper()` on one character (same modelled alphabets as
`pyCharLower`). -/
def pyCharUpper (c : Char) : Char :=
  if 97 ≤ c.toNat ∧ c.toNat ≤ 122 then Char.ofNat (c.toNat - 32)
  else if 1072 ≤ c.toNat ∧ c.toNat ≤ 1103 then Char.ofNat (c.toNat - 32)
  else if c.toNat = 1105 then Char.ofNat 1025
  else c

/-- Python `str.lower()`. -/
def pyLower (s : String) : String := ⟨s.data.map pyCharLower⟩

/-- Python `str.upper()`. -/
def pyUpper (s : String) : String := ⟨s.data.map pyCharUpper⟩

/-- Python `str.strip()` on a list of characters: drop leading and
trailing whitespace. -/
def pyStripL (l : List Char) : List Char :=
  (((l.dropWhile pyIsSpace).reverse).dropWhile pyIsSpace).reverse

/-- Python `str.strip()`. -/
def pyStrip (s : String) : String := ⟨pyStripL s.data⟩

/-- Python `needle in hay` for strings: contiguous substring test. -/
def pyContains (hay needle : String) : Bool :=
  decide (needle.data <:+: hay.data)

/-! ## Python `int(str)` (`config.py` line 31) -/

/-- Digit run of a Python integer literal after the first digit: ASCII
digits with single underscores allowed between digits. -/
def pyDigitsAux : List Char → Nat → Option Nat
  | [], acc => some acc
  | '_' :: c :: rest, acc =>
      if c.isDigit then pyDigitsAux rest (acc * 10 + (c.toNat - 48)) else none
  | '_' :: [], _ => none
  | c :: rest, acc =>
      if c.isDigit then pyDigitsAux rest (acc * 10 + (c.toNat - 48)) else none

/-- Unsigned digit sequence of Python `int()`: at least one digit,
underscores only between digits. -/
def pyUnsignedDigits : List Char → Option Nat
  | c :: rest => if c.isDigit then pyDigitsAux rest (c.toNat - 48) else none
  | [] => none

/-- Python `int(s)` for decimal strings: surrounding whitespace is
stripped, an optional single sign is allowed, and the body must be a
digit sequence.  `none` models `ValueError`.  (Non-ASCII decimal digits
accepted by CPython are outside the modelled alphabet.) -/
def pyIntParse (s : String) : Option Int :=
  match pyStripL s.data with
  | '+' :: rest => (pyUnsignedDigits rest).map (fun n => (n : Int))
  | '-' :: rest => (pyUnsignedDigits rest).map (fun n => -(n : Int))
  | rest => (pyUnsignedDigits rest).map (fun n => (n : Int))

/-! ## `json.loads` restricted to arrays of strings (`config.py` line 73)

`_parse_other_responses` keeps the result of `json.loads` only when it
is a `list` whose elements are all `str`; every other outcome (a parse
error, or a valid JSON value that is not a list of strings) falls
through to the delimiter-splitting steps.  Both outcomes are therefore
modelled by `none` below: `parseJsonStringList s = some l` exactly when
`json.loads(s)` succeeds and returns the list of strings `l`. -/

/-- JSON insignificant whitespace. -/
def jsonIsWs (c : Char) : Bool :=
  c == ' ' || c == '\t' || c == '\n' || c == '\r'

/-- Drop leading JSON whitespace. -/
def jsonSkipWs (l : List Char) : List Char := l.dropWhile jsonIsWs

/-- Value of one hexadecimal digit. -/
def hexDigitVal (c : Char) : Option Nat :=
  if c.isDigit then some (c.toNat - 48)
  else if 97 ≤ c.toNat ∧ c.toNat ≤ 102 then some (c.toNat - 87)
  else if 65 ≤ c.toNat ∧ c.toNat ≤ 70 then some (c.toNat - 55)
  else none

/-- Body of a JSON string literal (opening quote already consumed).
Returns the decoded content and the input after the closing quote.
Unescaped control characters are rejected (strict mode); `\uXXXX`
escapes are decoded when they denote a scalar value (surrogate halves
are outside the modelled subset). -/
def parseJStringAux : List Char → List Char → Option (String × List Char)
  | acc, '"' :: rest => some (⟨acc.reverse⟩, rest)
  | acc, '\\' :: esc :: rest =>
      match esc with
      | '"' => parseJStringAux ('"' :: acc) rest
      | '\\' => parseJStringAux ('\\' :: acc) rest
      | '/' => parseJStringAux ('/' :: acc) rest
      | 'b' => parseJStringAux ('\x08' :: acc) rest
      | 'f' => parseJStringAux ('\x0c' :: acc) rest
      | 'n' => parseJStringAux ('\n' :: acc) rest
      | 'r' => parseJStringAux ('\r' :: acc) rest
      | 't' => parseJStringAux ('\t' :: acc) rest
      | 'u' =>
          match rest with
          | h1 :: h2 :: h3 :: h4 :: rest2 =>
              match hexDigitVal h1, hexDigitVal h2, hexDigitVal h3, hexDigitVal h4 with
              | some a, some b, some c, some d =>
                  let n := ((a * 16 + b) * 16 + c) * 16 + d
                  if 55296 ≤ n ∧ n ≤ 57343 then none
                  else parseJStringAux (Char.ofNat n :: acc) rest2
              | _, _, _, _ => none
          | _ => none
      | _ => none
  | acc, c :: rest =>
      if c.toNat < 32 then none else parseJStringAux (c :: acc) rest
  | _, [] => none

/-- Comma-separated JSON string elements of a non-empty array, up to and
including the closing bracket.  `fuel` bounds the recursion and is
instantiated with the length of the input, which the element list can
never exceed. -/
def parseJArrayElems : Nat → List Char → Option (List String × List Char)
  | 0, _ => none
  | fuel + 1, cs =>
      match jsonSkipWs cs with
      | '"' :: rest =>
          match parseJStringAux [] rest with
          | none => none
          | some (s, rest2) =>
              match jsonSkipWs rest2 with
              | ',' :: rest3 =>
                  (parseJArrayElems fuel rest3).map (fun p => (s :: p.1, p.2))
              | ']' :: rest3 => some ([s], rest3)
              | _ => none
      | _ => none

/-- Result of `json.loads(s)` when it is a JSON array of strings; `none`
when `json.loads` raises or returns any other value. -/
def parseJsonStringList (s : String) : Option (List String) :=
  match jsonSkipWs s.data with
  | '[' :: rest =>
      match jsonSkipWs rest with
      | ']' :: rest2 => if jsonSkipWs rest2 = [] then some [] else none
      | _ =>
          match parseJArrayElems (rest.length + 1) rest with
          | some (l, r) => if jsonSkipWs r = [] then some l else none
          | none => none
  | _ => none

/-! ## `config.py` -/

/-- The immutable settings object built by `Config.__init__`. -/
structure Config where
  BOT_TOKEN : String
  OWNER_ID : Option Int
  KEY_PHRASE : String
  KEY_RESPONSE : String
  OTHER_RESPONSES : List String
  CASE_SENSITIVE : Bool
  LOG_LEVEL : String
deriving DecidableEq, Repr

/-- `Config._get_default_responses` (`config.py` lines 104-110). -/
def get_default_responses : List String :=
  ["Hello! How can I help you today?", "Thanks for your message!",
   "I'm here if you need anything else.", "Have a great day!",
   "Thanks for reaching out!"]

/-- The inline default pool returned by `_parse_other_responses` for an
empty raw value (`config.py` lines 66-69). -/
def default_other_responses : List String :=
  ["Ты точно попал туда, куда надо?", "Что?", "Подумай ещё.",
   "Не правильно!", "Ты не угадал!"]

/-- Python `str.split(sep)` on a list of characters for a one-character
separator: the segments between occurrences of `sep`, empty segments
kept (`"".split(sep)` is `[""]`). -/
def pySplitL (sep : Char) : List Char → List (List Char)
  | [] => [[]]
  | c :: rest =>
      match pySplitL sep rest with
      | [] => [[]]
      | cur :: acc => if c = sep then [] :: cur :: acc else (c :: cur) :: acc

/-- Python `s.split(sep)` for a one-character separator. -/
def pySplit (sep : Char) (s : String) : List String :=
  (pySplitL sep s.data).map (fun l => ⟨l⟩)

/-- `[r.strip() for r in responses_str.split(sep) if r.strip()]`
(`config.py` lines 86-87 and 94-95). -/
def splitPool (sep : Char) (s : String) : List String :=
  ((pySplit sep s).map pyStrip).filter (· != "")

/-- `Config._parse_other_responses` (`config.py` lines 62-102). -/
def parse_other_responses (responses_str : String) : List String :=
  if responses_str = "" then default_other_responses
  else
    match parseJsonStringList responses_str with
    | some responses => responses
    | none =>
        if responses_str.data.contains ',' ∧ splitPool ',' responses_str ≠ [] then
          splitPool ',' responses_str
        else if responses_str.data.contains '\n' ∧ splitPool '\n' responses_str ≠ [] then
          splitPool '\n' responses_str
        else if pyStrip responses_str ≠ "" then [pyStrip responses_str]
        else get_default_responses

/-- `Config.get_effective_key_phrase` (`config.py` lines 138-141). -/
def Config.get_effective_key_phrase (cfg : Config) : String :=
  if cfg.CASE_SENSITIVE then cfg.KEY_PHRASE else pyLower cfg.KEY_PHRASE

/-- `Config.normalize_text` (`config.py` lines 143-145). -/
def Config.normalize_text (cfg : Config) (text : String) : String :=
  if cfg.CASE_SENSITIVE then text else pyLower text

/-- The environment variables read by `Config.__init__`; `none` models
an unset variable. -/
structure Env where
  BOT_TOKEN : Option String
  OWNER_ID : Option String
  KEY_PHRASE : Option String
  KEY_RESPONSE : Option String
  OTHER_RESPONSES : Option String
  CASE_SENSITIVE : Option String
  LOG_LEVEL : Option String
deriving DecidableEq, Repr

/-- `Config.__init__` followed by `_validate_config` (`config.py` lines
18-60 and 112-136).  The `try/except ValueError` around
`int(owner_id_str)` is the `pyIntParse` option; all other branches only
log and substitute defaults, so construction is a total function. -/
def Config.init (e : Env) : Config :=
  let BOT_TOKEN := e.BOT_TOKEN.getD ""
  let owner_id_str := e.OWNER_ID.getD ""
  let OWNER_ID : Option Int :=
    if owner_id_str = "" then none else pyIntParse owner_id_str
  let KEY_PHRASE := e.KEY_PHRASE.getD "QR код"
  let KEY_RESPONSE := e.KEY_RESPONSE.getD
    "Это то, о чём я говорил! Ура! Ты прошел мой МЕГА квест! Поздравляю! Теперь ты можешь получить свой приз!"
  let OTHER_RESPONSES := parse_other_responses (e.OTHER_RESPONSES.getD "")
  let CASE_SENSITIVE := pyLower (e.CASE_SENSITIVE.getD "false") == "true"
  let log_level := pyUpper (e.LOG_LEVEL.getD "INFO")
  let LOG_LEVEL :=
    if log_level ∈ ["DEBUG", "INFO", "WARNING", "ERROR"] then log_level else "INFO"
  -- `_validate_config` replacements for the empty/invalid cases:
  let KEY_PHRASE := if KEY_PHRASE = "" then "secret" else KEY_PHRASE
  let KEY_RESPONSE :=
    if KEY_RESPONSE = "" then "This is the prepared response for the key phrase!"
    else KEY_RESPONSE
  let OTHER_RESPONSES :=
    if OTHER_RESPONSES = [] then get_default_responses else OTHER_RESPONSES
  ⟨BOT_TOKEN, OWNER_ID, KEY_PHRASE, KEY_RESPONSE, OTHER_RESPONSES,
    CASE_SENSITIVE, LOG_LEVEL⟩

/-- Python truthiness of the `Optional[int]` field `OWNER_ID`, as tested
by `if self.config.OWNER_ID:` (`bot_handlers.py` line 92) and
`if not config.OWNER_ID:` (`main.py` line 32): `None` and `0` are both
falsy. -/
def ownerTruthy : Option Int → Bool
  | none => false
  | some n => n != 0

/-- The startup validation of `main()` (`main.py` lines 27-34): the bot
proceeds past the two required-field checks exactly when `BOT_TOKEN` is
a non-empty string and `OWNER_ID` is truthy. -/
def mainStartupPasses (cfg : Config) : Bool :=
  cfg.BOT_TOKEN != "" && ownerTruthy cfg.OWNER_ID

/-! ## `bot_handlers.py`

`handle_message` is embedded as a total function from the incoming
update, the settings, the random index used by `random.choice`, and the
two injected chat-client capabilities (`reply_text` and
`bot.send_message`, both of which may raise) to an `Outcome` recording
what the handler did.  Python exceptions inside the handler body are
`Except.error`; the outermost `try/except` of `handle_message` converts
any of them into the generic apology reply. -/

/-- The sender of a message (`update.effective_user`). -/
structure TgUser where
  id : Int
  first_name : String
  last_name : Option String
  username : Option String
deriving DecidableEq, Repr

/-- `update.message`: optional text and an (unused by the reachable
code) optional timestamp. -/
structure TgMessage where
  text : Option String
  date : Option Nat
deriving DecidableEq, Repr

/-- An incoming update carrying an optional message and its sender. -/
structure TgUpdate where
  message : Option TgMessage
  user : TgUser
deriving DecidableEq, Repr

/-- Python exceptions distinguished by the handlers: `TelegramError`
(caught separately in `_notify_owner`), the `NameError` raised by the
unbound `update` reference, and any other exception. -/
inductive PyError where
  | nameError
  | telegramError
  | otherError
deriving DecidableEq, Repr

/-- What `_notify_owner` did: it either completed a send, or caught a
`TelegramError`, or caught some other exception — it never raises. -/
inductive NotifyOutcome where
  | sent
  | telegramErrorLogged
  | unexpectedErrorLogged
deriving DecidableEq, Repr

/-- Whether `_handle_key_phrase` called `_notify_owner` or logged the
"Owner notification skipped: OWNER_ID not configured" warning. -/
inductive NotifyDecision where
  | attempted (result : NotifyOutcome)
  | skippedNoOwner
deriving DecidableEq, Repr

/-- The observable result of `handle_message`. -/
inductive Outcome where
  /-- Missing or empty/whitespace-only text: the handler returned
  without sending anything. -/
  | noAction
  /-- The key phrase matched: `KEY_RESPONSE` was sent as the reply and
  the owner notification was decided as recorded. -/
  | keyPhrase (reply : String) (notify : NotifyDecision)
  /-- No match: a fallback reply was sent. -/
  | regular (reply : String)
  /-- The outer `except` caught an exception and sent the generic
  "Sorry, I couldn't process your message." apology. -/
  | errorApology
deriving DecidableEq, Repr

/-- Body of the `try` block of `_notify_owner` (`bot_handlers.py` lines
119-137).  Building `notification_message` evaluates
`hasattr(update, 'message')` in the Time line of the f-string, but
`update` is not a parameter of `_notify_owner` and is bound neither at
module level nor in builtins, so the name lookup raises `NameError`
before `bot.send_message` is reached.  The statements after the raise
point are dead code. -/
def notifyBody (cfg : Config) (user : TgUser) (message_text : String)
    (send : Int → String → Except PyError Unit) : Except PyError Unit := do
  let username := user.username.getD "No username"
  let user_full_name := pyStrip (user.first_name ++ " " ++ user.last_name.getD "")
  throw PyError.nameError
  -- dead: notification_message f-string completes, then
  -- `await bot.send_message(chat_id=self.config.OWNER_ID, ...)`:
  let _ ← send (cfg.OWNER_ID.getD 0) message_text
  pure ()

/-- `BotHandlers._notify_owner` (`bot_handlers.py` lines 117-143): runs
`notifyBody` and catches `TelegramError` and every other exception,
logging only — the function itself never raises. -/
def notify_owner (cfg : Config) (user : TgUser) (message_text : String)
    (send : Int → String → Except PyError Unit) : NotifyOutcome :=
  match notifyBody cfg user message_text send with
  | Except.ok _ => NotifyOutcome.sent
  | Except.error PyError.telegramError => NotifyOutcome.telegramErrorLogged
  | Except.error _ => NotifyOutcome.unexpectedErrorLogged

/-- `BotHandlers._handle_key_phrase` (`bot_handlers.py` lines 84-99):
reply with `KEY_RESPONSE`, then notify the owner only when `OWNER_ID`
is truthy; its `except` clause logs and re-raises, which is exactly the
propagation of the `Except` monad. -/
def handle_key_phrase (cfg : Config) (user : TgUser) (message_text : String)
    (replyCap : String → Except PyError Unit)
    (send : Int → String → Except PyError Unit) : Except PyError Outcome := do
  let _ ← replyCap cfg.KEY_RESPONSE
  if ownerTruthy cfg.OWNER_ID then
    pure (Outcome.keyPhrase cfg.KEY_RESPONSE
      (NotifyDecision.attempted (notify_owner cfg user message_text send)))
  else
    pure (Outcome.keyPhrase cfg.KEY_RESPONSE NotifyDecision.skippedNoOwner)

/-- `random.choice(l)` for a non-empty list `l`, modelled by an
arbitrary index reduced modulo the length; the default of `getD` is
unreachable at the call site because the pool is checked non-empty. -/
def random_choice (l : List String) (randIdx : Nat) : String :=
  l.getD (randIdx % l.length) ""

/-- `BotHandlers._handle_regular_message` (`bot_handlers.py` lines
101-115): a random pool member if the pool is non-empty, otherwise the
fixed acknowledgement. -/
def handle_regular_message (cfg : Config) (randIdx : Nat)
    (replyCap : String → Except PyError Unit) : Except PyError Outcome := do
  if cfg.OTHER_RESPONSES ≠ [] then
    let response := random_choice cfg.OTHER_RESPONSES randIdx
    let _ ← replyCap response
    pure (Outcome.regular response)
  else
    let _ ← replyCap "Thanks for your message!"
    pure (Outcome.regular "Thanks for your message!")

/-- `BotHandlers.handle_message` (`bot_handlers.py` lines 55-82).  The
guard `if not update.message or not update.message.text` covers a
missing message, a missing text and the empty text; then the text is
stripped and a whitespace-only message returns silently; otherwise the
normalized text is matched against the effective key phrase by
substring containment.  The outer `except Exception` converts any
escaping exception into the apology reply. -/
def handle_message (cfg : Config) (upd : TgUpdate) (randIdx : Nat)
    (replyCap : String → Except PyError Unit)
    (send : Int → String → Except PyError Unit) : Outcome :=
  let body : Except PyError Outcome :=
    match upd.message with
    | none => pure Outcome.noAction
    | some m =>
        match m.text with
        | none => pure Outcome.noAction
        | some t =>
            if t = "" then pure Outcome.noAction
            else
              let message_text := pyStrip t
              if message_text = "" then pure Outcome.noAction
              else
                let normalized_message := cfg.normalize_text message_text
                let key_phrase := cfg.get_effective_key_phrase
                if pyContains normalized_message key_phrase then
                  handle_key_phrase cfg upd.user message_text replyCap send
                else
                  handle_regular_message cfg randIdx replyCap
  match body with
  | Except.ok o => o
  | Except.error _ => Outcome.errorApology

/-- Whether the outcome records an invocation of `_notify_owner`. -/
def Outcome.notifyAttempted : Outcome → Bool
  | Outcome.keyPhrase _ (NotifyDecision.attempted _) => true
  | _ => false

/-! ## Helper lemmas -/

lemma toNat_ofNat_lt {n : Nat} (h : n < 55296) : (Char.ofNat n).toNat = n := by
  rw [Char.ofNat, dif_pos (Or.inl h)]
  rfl

lemma pyIsSpace_pyCharLower (c : Char) : pyIsSpace (pyCharLower c) = pyIsSpace c := by
  unfold pyCharLower pyIsSpace
  split
  · next h =>
      rw [toNat_ofNat_lt (by omega)]
      exact decide_eq_decide.mpr (by unfold pySpaceCodes; omega)
  · split
    · next h h2 =>
        rw [toNat_ofNat_lt (by omega)]
        exact decide_eq_decide.mpr (by unfold pySpaceCodes; omega)
    · split
      · next h h2 h3 =>
          rw [toNat_ofNat_lt (by omega)]
          exact decide_eq_decide.mpr (by unfold pySpaceCodes; omega)
      · rfl

lemma infixRev {l₁ l₂ : List Char} (h : l₁ <:+: l₂) : l₁.reverse <:+: l₂.reverse := by
  obtain ⟨s, t, rfl⟩ := h
  exact ⟨t.reverse, s.reverse, by simp⟩

lemma infix_dropWhile_of_head {p : List Char} {c : Char}
    (hc : p.head? = some c) (hws : pyIsSpace c = false)
    {l : List Char} (h : p <:+: l) : p <:+: l.dropWhile pyIsSpace := by
  obtain ⟨s, t, rfl⟩ := h
  induction s with
  | nil =>
      cases p with
      | nil => simp at hc
      | cons a p' =>
          simp only [List.head?_cons, Option.some.injEq] at hc
          subst hc
          simp only [List.nil_append, List.cons_append]
          rw [List.dropWhile_cons_of_neg (by simp [hws])]
          exact ⟨[], t, rfl⟩
  | cons a s' ih =>
      by_cases ha : pyIsSpace a = true
      · simpa [List.cons_append, List.dropWhile_cons_of_pos ha] using ih
      · simp only [List.cons_append]
        rw [List.dropWhile_cons_of_neg (by simp [ha])]
        exact ⟨a :: s', t, by simp⟩

lemma infix_pyStripL {p l : List Char} {c₁ c₂ : Char}
    (hc1 : p.head? = some c₁) (h1 : pyIsSpace c₁ = false)
    (hc2 : p.getLast? = some c₂) (h2 : pyIsSpace c₂ = false)
    (h : p <:+: l) : p <:+: pyStripL l := by
  unfold pyStripL
  have s1 := infix_dropWhile_of_head hc1 h1 h
  have s2 : p.reverse <:+: (l.dropWhile pyIsSpace).reverse := infixRev s1
  have hc2' : p.reverse.head? = some c₂ := by rw [List.head?_reverse]; exact hc2
  have s3 := infix_dropWhile_of_head hc2' h2 s2
  have s4 := infixRev s3
  rwa [List.reverse_reverse] at s4

lemma dropWhile_pyCharLower (l : List Char) :
    (l.map pyCharLower).dropWhile pyIsSpace = (l.dropWhile pyIsSpace).map pyCharLower := by
  rw [List.dropWhile_map]
  have hcomp : (pyIsSpace ∘ pyCharLower) = pyIsSpace :=
    funext fun c => by simp [Function.comp, pyIsSpace_pyCharLower]
  rw [hcomp]

lemma pyStripL_map_lower (l : List Char) :
    pyStripL (l.map pyCharLower) = (pyStripL l).map pyCharLower := by
  unfold pyStripL
  rw [dropWhile_pyCharLower, ← List.map_reverse, dropWhile_pyCharLower, ← List.map_reverse]

lemma string_eq_empty_iff (s : String) : s = "" ↔ s.data = [] := by
  constructor
  · intro h; rw [h]
  · intro h
    cases s with
    | mk d =>
        have hd : d = [] := h
        subst hd; rfl

lemma contains_strip_transfer (cfg : Config) (t : String)
    (hne : cfg.get_effective_key_phrase ≠ "")
    (hh : pyIsSpace ((cfg.get_effective_key_phrase).data.headD ' ') = false)
    (hl : pyIsSpace ((cfg.get_effective_key_phrase).data.getLastD ' ') = false)
    (hcont : pyContains (cfg.normalize_text t) cfg.get_effective_key_phrase = true) :
    pyStrip t ≠ "" ∧
    pyContains (cfg.normalize_text (pyStrip t)) cfg.get_effective_key_phrase = true := by
  set p := cfg.get_effective_key_phrase with hp
  have pdne : p.data ≠ [] := fun h => hne ((string_eq_empty_iff p).mpr h)
  obtain ⟨a, p', hpd⟩ := List.exists_cons_of_ne_nil pdne
  have hhead : p.data.head? = some a := by rw [hpd]; rfl
  have hha : pyIsSpace a = false := by rw [hpd] at hh; simpa using hh
  obtain ⟨b, hb⟩ : ∃ b, p.data.getLast? = some b := by
    cases hgl : p.data.getLast? with
    | none => exact absurd (List.getLast?_eq_none_iff.mp hgl) pdne
    | some b => exact ⟨b, rfl⟩
  have hlb : pyIsSpace b = false := by
    rw [List.getLastD_eq_getLast?, hb] at hl
    simpa using hl
  have hcont' : p.data <:+: (cfg.normalize_text t).data := by
    unfold pyContains at hcont
    exact of_decide_eq_true hcont
  unfold Config.normalize_text at hcont' ⊢
  by_cases hcs : cfg.CASE_SENSITIVE
  · simp only [hcs, if_true] at hcont' ⊢
    have hs : p.data <:+: (pyStrip t).data := infix_pyStripL hhead hha hb hlb hcont'
    refine ⟨?_, ?_⟩
    · intro hempty
      rw [(string_eq_empty_iff _).mp hempty] at hs
      have hlen := hs.length_le
      rw [hpd] at hlen
      simp at hlen
    · unfold pyContains
      exact decide_eq_true hs
  · simp only [hcs, Bool.false_eq_true, if_false] at hcont' ⊢
    have hmap : (pyLower t).data = t.data.map pyCharLower := rfl
    rw [hmap] at hcont'
    have hs := infix_pyStripL hhead hha hb hlb hcont'
    rw [pyStripL_map_lower] at hs
    have hs' : p.data <:+: (pyLower (pyStrip t)).data := hs
    refine ⟨?_, ?_⟩
    · intro hempty
      have hnil : (pyStrip t).data = [] := (string_eq_empty_iff _).mp hempty
      have hnil2 : (pyLower (pyStrip t)).data = [] := by
        show (pyStrip t).data.map pyCharLower = []
        rw [hnil]; rfl
      rw [hnil2] at hs'
      have hlen := hs'.length_le
      rw [hpd] at hlen
      simp at hlen
    · unfold pyContains
      exact decide_eq_true hs'

lemma notifyBody_eq (cfg : Config) (user : TgUser) (mt : String)
    (send : Int → String → Except PyError Unit) :
    notifyBody cfg user mt send = Except.error PyError.nameError := rfl

lemma notify_owner_eq (cfg : Config) (user : TgUser) (mt : String)
    (send : Int → String → Except PyError Unit) :
    notify_owner cfg user mt send = NotifyOutcome.unexpectedErrorLogged := rfl

lemma random_choice_mem (l : List String) (i : Nat) (h : l ≠ []) :
    random_choice l i ∈ l := by
  unfold random_choice
  have hlen : 0 < l.length := List.length_pos.mpr h
  have hmod : i % l.length < l.length := Nat.mod_lt _ hlen
  rw [List.getD_eq_getElem?_getD, List.getElem?_eq_getElem hmod]
  exact List.getElem_mem hmod

lemma handle_key_phrase_eq (cfg : Config) (user : TgUser) (mt : String)
    (replyCap : String → Except PyError Unit)
    (send : Int → String → Except PyError Unit)
    (hreply : ∀ s, replyCap s = Except.ok ()) :
    handle_key_phrase cfg user mt replyCap send =
      Except.ok (Outcome.keyPhrase cfg.KEY_RESPONSE
        (if ownerTruthy cfg.OWNER_ID then
          NotifyDecision.attempted NotifyOutcome.unexpectedErrorLogged
        else NotifyDecision.skippedNoOwner)) := by
  unfold handle_key_phrase
  rw [hreply]
  by_cases h : ownerTruthy cfg.OWNER_ID <;>
    simp [h, notify_owner_eq, Bind.bind, Except.bind, Pure.pure, Except.pure]

lemma handle_regular_message_eq (cfg : Config) (randIdx : Nat)
    (replyCap : String → Except PyError Unit)
    (hreply : ∀ s, replyCap s = Except.ok ()) :
    handle_regular_message cfg randIdx replyCap =
      Except.ok (Outcome.regular
        (if cfg.OTHER_RESPONSES ≠ [] then random_choice cfg.OTHER_RESPONSES randIdx
         else "Thanks for your message!")) := by
  unfold handle_regular_message
  by_cases h : cfg.OTHER_RESPONSES = [] <;>
    simp [h, hreply, Bind.bind, Except.bind, Pure.pure, Except.pure]

lemma handle_message_eval (cfg : Config) (user : TgUser) (t : String) (d : Option Nat)
    (randIdx : Nat) (replyCap : String → Except PyError Unit)
    (send : Int → String → Except PyError Unit)
    (hreply : ∀ s, replyCap s = Except.ok ())
    (ht : t ≠ "") (hst : pyStrip t ≠ "") :
    handle_message cfg ⟨some ⟨some t, d⟩, user⟩ randIdx replyCap send =
      (if pyContains (cfg.normalize_text (pyStrip t)) cfg.get_effective_key_phrase then
        Outcome.keyPhrase cfg.KEY_RESPONSE
          (if ownerTruthy cfg.OWNER_ID then
            NotifyDecision.attempted NotifyOutcome.unexpectedErrorLogged
          else NotifyDecision.skippedNoOwner)
      else
        Outcome.regular
          (if cfg.OTHER_RESPONSES ≠ [] then random_choice cfg.OTHER_RESPONSES randIdx
           else "Thanks for your message!")) := by
  unfold handle_message
  simp only [ht, hst, if_false, if_neg, reduceIte]
  by_cases hc : pyContains (cfg.normalize_text (pyStrip t)) cfg.get_effective_key_phrase = true
  · simp [ht, hst, hc, handle_key_phrase_eq cfg user (pyStrip t) replyCap send hreply]
  · simp [ht, hst, hc, handle_regular_message_eq cfg randIdx replyCap hreply]

lemma handle_message_stripped_empty (cfg : Config) (user : TgUser) (t : String)
    (d : Option Nat) (randIdx : Nat) (replyCap : String → Except PyError Unit)
    (send : Int → String → Except PyError Unit) (hst : pyStrip t = "") :
    handle_message cfg ⟨some ⟨some t, d⟩, user⟩ randIdx replyCap send =
      Outcome.noAction := by
  unfold handle_message
  by_cases ht : t = ""
  · simp [ht, Pure.pure, Except.pure]
  · simp [ht, hst, Pure.pure, Except.pure]

lemma handle_key_phrase_mt_irrel (cfg : Config) (user : TgUser) (mt₁ mt₂ : String)
    (replyCap : String → Except PyError Unit)
    (send : Int → String → Except PyError Unit) :
    handle_key_phrase cfg user mt₁ replyCap send =
      handle_key_phrase cfg user mt₂ replyCap send := by
  unfold handle_key_phrase
  simp [notify_owner_eq]

lemma handle_message_body_eq (cfg : Config) (user : TgUser) (t : String) (d : Option Nat)
    (randIdx : Nat) (replyCap : String → Except PyError Unit)
    (send : Int → String → Except PyError Unit)
    (ht : t ≠ "") (hst : pyStrip t ≠ "") :
    handle_message cfg ⟨some ⟨some t, d⟩, user⟩ randIdx replyCap send =
      (if pyContains (cfg.normalize_text (pyStrip t)) cfg.get_effective_key_phrase then
        (match handle_key_phrase cfg user (pyStrip t) replyCap send with
         | Except.ok o => o
         | Except.error _ => Outcome.errorApology)
      else
        (match handle_regular_message cfg randIdx replyCap with
         | Except.ok o => o
         | Except.error _ => Outcome.errorApology)) := by
  unfold handle_message
  by_cases hc : pyContains (cfg.normalize_text (pyStrip t)) cfg.get_effective_key_phrase = true
  · simp [ht, hst, hc]
  · simp [ht, hst, hc]

lemma strip_empty_lower_iff (t₁ t₂ : String) (h : pyLower t₁ = pyLower t₂) :
    (pyStrip t₁ = "" ↔ pyStrip t₂ = "") := by
  have hd : t₁.data.map pyCharLower = t₂.data.map pyCharLower := congrArg String.data h
  rw [string_eq_empty_iff, string_eq_empty_iff]
  show pyStripL t₁.data = [] ↔ pyStripL t₂.data = []
  rw [← List.map_eq_nil_iff (f := pyCharLower), ← pyStripL_map_lower, hd,
      pyStripL_map_lower, List.map_eq_nil_iff]

lemma lower_strip_eq_of_lower_eq (t₁ t₂ : String) (h : pyLower t₁ = pyLower t₂) :
    pyLower (pyStrip t₁) = pyLower (pyStrip t₂) := by
  have hd : t₁.data.map pyCharLower = t₂.data.map pyCharLower := congrArg String.data h
  show String.mk ((pyStripL t₁.data).map pyCharLower) =
    String.mk ((pyStripL t₂.data).map pyCharLower)
  rw [← pyStripL_map_lower, ← pyStripL_map_lower, hd]

lemma pyIntParse_empty : pyIntParse "" = none := rfl

lemma pyStrip_empty : pyStrip "" = "" := rfl

/-! ## Concrete inputs used by counterexamples and witnesses -/

/-- A typical production environment: token and owner set, everything
else defaulted. -/
def envEx : Env := ⟨some "token", some "123", none, none, none, none, none⟩

/-- The settings object built from `envEx`. -/
def cfgEx : Config := Config.init envEx

/-- A typical sender. -/
def userEx : TgUser := ⟨7, "Ivan", none, some "ivan"⟩

/-- A reply capability that always succeeds. -/
def okReply : String → Except PyError Unit := fun _ => Except.ok ()

/-- A send capability that always succeeds. -/
def okSend : Int → String → Except PyError Unit := fun _ _ => Except.ok ()

/-- A send capability that always raises `TelegramError`. -/
def failSend : Int → String → Except PyError Unit :=
  fun _ _ => Except.error PyError.telegramError

/-- Environment for the C1 counterexample: the key phrase has a leading
space. -/
def envC1 : Env := ⟨some "token", some "5", some " x", some "KR", some "f1", none, none⟩

/-- Settings with effective key phrase `" x"` and fallback pool
`["f1"]`. -/
def cfgC1 : Config := Config.init envC1

/-- The message `" x"`, whose normalized form contains the effective
key phrase `" x"`. -/
def updC1 : TgUpdate := ⟨some ⟨some " x", none⟩, userEx⟩

/-! ## C1 -/

/-- C1, counterexample.  The claim quantifies over every settings object
and every message whose normalized form contains the effective trigger
phrase, and asserts the reply is `KEY_RESPONSE`.  With the key phrase
`" x"` (reachable from the environment `KEY_PHRASE=" x"`) and the
message `" x"`, the normalized message does contain the phrase, yet
`handle_message` strips the text before matching, the stripped text
`"x"` no longer contains `" x"`, and the fallback reply `"f1"` is sent
instead of `KEY_RESPONSE = "KR"`. -/
theorem C1_trigger_reply_cex :
    pyContains (cfgC1.normalize_text " x") cfgC1.get_effective_key_phrase = true ∧
    cfgC1.KEY_RESPONSE = "KR" ∧
    handle_message cfgC1 updC1 0 okReply okSend = Outcome.regular "f1" :=
  ⟨by decide, by decide, by decide⟩

/-- C1, amended: for every settings object whose effective trigger
phrase is non-empty and neither starts nor ends with whitespace, and
every message whose normalized form contains the phrase, handling the
message sends exactly `KEY_RESPONSE` as the reply (the amendment adds
the boundary-whitespace proviso forced by the counterexample; stripping
the message then cannot remove any occurrence of the phrase). -/
theorem C1_trigger_reply_amended (cfg : Config) (user : TgUser) (t : String)
    (d : Option Nat) (randIdx : Nat) (replyCap : String → Except PyError Unit)
    (send : Int → String → Except PyError Unit)
    (hreply : ∀ s, replyCap s = Except.ok ())
    (hne : cfg.get_effective_key_phrase ≠ "")
    (hh : pyIsSpace ((cfg.get_effective_key_phrase).data.headD ' ') = false)
    (hl : pyIsSpace ((cfg.get_effective_key_phrase).data.getLastD ' ') = false)
    (hcont : pyContains (cfg.normalize_text t) cfg.get_effective_key_phrase = true) :
    ∃ nd, handle_message cfg ⟨some ⟨some t, d⟩, user⟩ randIdx replyCap send =
      Outcome.keyPhrase cfg.KEY_RESPONSE nd := by
  obtain ⟨hst, hcont'⟩ := contains_strip_transfer cfg t hne hh hl hcont
  have ht : t ≠ "" := fun h => hst (by rw [h]; exact pyStrip_empty)
  rw [handle_message_eval cfg user t d randIdx replyCap send hreply ht hst,
    if_pos hcont']
  exact ⟨_, rfl⟩

/-- C1, witness: the amended theorem applied to the default settings and
the message `"Вот QR код!"`. -/
theorem C1_trigger_reply_witness :
    ∃ nd, handle_message cfgEx ⟨some ⟨some "Вот QR код!", none⟩, userEx⟩ 0 okReply okSend =
      Outcome.keyPhrase cfgEx.KEY_RESPONSE nd :=
  C1_trigger_reply_amended cfgEx userEx "Вот QR код!" none 0 okReply okSend
    (fun _ => rfl) (by decide) (by decide) (by decide) (by decide)

/-! ## C2 -/

/-- C2: for every handled message (reply delivery succeeding), the
notifier `_notify_owner` is invoked if and only if the stripped message
is non-empty, its normalized form contains the effective trigger phrase,
and `OWNER_ID` is truthy; and in the match-but-no-owner case the
outcome is exactly the `KEY_RESPONSE` reply together with the logged
skip (`Outcome.keyPhrase _ NotifyDecision.skippedNoOwner` records the
`"Owner notification skipped: OWNER_ID not configured"` warning branch
of `bot_handlers.py` line 95). -/
theorem C2_notify_iff (cfg : Config) (user : TgUser) (t : String) (d : Option Nat)
    (randIdx : Nat) (replyCap : String → Except PyError Unit)
    (send : Int → String → Except PyError Unit)
    (hreply : ∀ s, replyCap s = Except.ok ()) :
    ((handle_message cfg ⟨some ⟨some t, d⟩, user⟩ randIdx replyCap send).notifyAttempted
        = true ↔
      (pyStrip t ≠ "" ∧
       pyContains (cfg.normalize_text (pyStrip t)) cfg.get_effective_key_phrase = true ∧
       ownerTruthy cfg.OWNER_ID = true)) ∧
    (pyStrip t ≠ "" →
     pyContains (cfg.normalize_text (pyStrip t)) cfg.get_effective_key_phrase = true →
     ownerTruthy cfg.OWNER_ID = false →
     handle_message cfg ⟨some ⟨some t, d⟩, user⟩ randIdx replyCap send =
       Outcome.keyPhrase cfg.KEY_RESPONSE NotifyDecision.skippedNoOwner) := by
  by_cases hst : pyStrip t = ""
  · rw [handle_message_stripped_empty cfg user t d randIdx replyCap send hst]
    refine ⟨?_, ?_⟩
    · simp [Outcome.notifyAttempted, hst]
    · intro h; exact absurd hst h
  · have ht : t ≠ "" := fun h => hst (by rw [h]; exact pyStrip_empty)
    rw [handle_message_eval cfg user t d randIdx replyCap send hreply ht hst]
    by_cases hc :
        pyContains (cfg.normalize_text (pyStrip t)) cfg.get_effective_key_phrase = true
    · rw [if_pos hc]
      by_cases ho : ownerTruthy cfg.OWNER_ID = true
      · rw [if_pos ho]
        refine ⟨?_, ?_⟩
        · simp [Outcome.notifyAttempted, hst, hc, ho]
        · intro _ _ ho'; rw [ho] at ho'; cases ho'
      · rw [if_neg ho]
        refine ⟨?_, ?_⟩
        · simp [Outcome.notifyAttempted, hst, hc, ho]
        · intro _ _ _; rfl
    · rw [if_neg hc]
      refine ⟨?_, ?_⟩
      · simp [Outcome.notifyAttempted, hc]
      · intro _ hc' _; exact absurd hc' hc

/-- C2, witness: the theorem applied to the default settings (owner
configured) and the message `"привет"`. -/
theorem C2_notify_iff_witness :
    ((handle_message cfgEx ⟨some ⟨some "привет", none⟩, userEx⟩ 0 okReply
        okSend).notifyAttempted = true ↔
      (pyStrip "привет" ≠ "" ∧
       pyContains (cfgEx.normalize_text (pyStrip "привет"))
         cfgEx.get_effective_key_phrase = true ∧
       ownerTruthy cfgEx.OWNER_ID = true)) ∧
    (pyStrip "привет" ≠ "" →
     pyContains (cfgEx.normalize_text (pyStrip "привет"))
       cfgEx.get_effective_key_phrase = true →
     ownerTruthy cfgEx.OWNER_ID = false →
     handle_message cfgEx ⟨some ⟨some "привет", none⟩, userEx⟩ 0 okReply okSend =
       Outcome.keyPhrase cfgEx.KEY_RESPONSE NotifyDecision.skippedNoOwner) :=
  C2_notify_iff cfgEx userEx "привет" none 0 okReply okSend (fun _ => rfl)

/-! ## C4 -/

/-- C4: a message whose text is empty or whitespace-only after trimming
is a silent no-op (`Outcome.noAction`: no reply of any kind, and in
particular no `_notify_owner` invocation), while a non-empty message
with no trigger match does send a fallback reply
(`Outcome.regular`) — the two outcomes are distinct by construction. -/
theorem C4_empty_message_noop :
    (∀ (cfg : Config) (user : TgUser) (t : String) (d : Option Nat) (randIdx : Nat)
       (replyCap : String → Except PyError Unit)
       (send : Int → String → Except PyError Unit),
       pyStrip t = "" →
       handle_message cfg ⟨some ⟨some t, d⟩, user⟩ randIdx replyCap send =
         Outcome.noAction) ∧
    (∀ (cfg : Config) (user : TgUser) (t : String) (d : Option Nat) (randIdx : Nat)
       (replyCap : String → Except PyError Unit)
       (send : Int → String → Except PyError Unit),
       (∀ s, replyCap s = Except.ok ()) →
       pyStrip t ≠ "" →
       pyContains (cfg.normalize_text (pyStrip t)) cfg.get_effective_key_phrase = false →
       ∃ r, handle_message cfg ⟨some ⟨some t, d⟩, user⟩ randIdx replyCap send =
         Outcome.regular r) := by
  refine ⟨?_, ?_⟩
  · intro cfg user t d randIdx replyCap send hst
    exact handle_message_stripped_empty cfg user t d randIdx replyCap send hst
  · intro cfg user t d randIdx replyCap send hreply hst hc
    have ht : t ≠ "" := fun h => hst (by rw [h]; exact pyStrip_empty)
    rw [handle_message_eval cfg user t d randIdx replyCap send hreply ht hst,
      if_neg (by simp [hc])]
    exact ⟨_, rfl⟩

/-- C4, witness: silent no-op on the whitespace message `"   "` and a
fallback reply on the unmatched message `"привет"`, both with the
default settings. -/
theorem C4_empty_message_noop_witness :
    handle_message cfgEx ⟨some ⟨some "   ", none⟩, userEx⟩ 0 okReply okSend =
      Outcome.noAction ∧
    ∃ r, handle_message cfgEx ⟨some ⟨some "привет", none⟩, userEx⟩ 0 okReply okSend =
      Outcome.regular r :=
  ⟨C4_empty_message_noop.1 cfgEx userEx "   " none 0 okReply okSend (by decide),
   C4_empty_message_noop.2 cfgEx userEx "привет" none 0 okReply okSend
     (fun _ => rfl) (by decide) (by decide)⟩

/-! ## C5 -/

/-- C5: on a trigger match with owner configured, even when the injected
send capability always raises, the failure never escapes `_notify_owner`
(the outcome is a logged notifier error, not `Outcome.errorApology` and
not an exception), and the already-sent `KEY_RESPONSE` reply stands
untouched.  In the source the caught failure is in fact the `NameError`
raised by the unbound `update` reference while the payload is being
formatted (see C7), which occurs before the injected send could be
consulted; the containment property claimed here holds for every send
capability, in particular the always-raising one hypothesised. -/
theorem C5_notify_failure_contained (cfg : Config) (user : TgUser) (t : String)
    (d : Option Nat) (randIdx : Nat) (replyCap : String → Except PyError Unit)
    (send : Int → String → Except PyError Unit) (e : PyError)
    (hreply : ∀ s, replyCap s = Except.ok ())
    (hsend : ∀ chatId text, send chatId text = Except.error e)
    (hst : pyStrip t ≠ "")
    (hcont : pyContains (cfg.normalize_text (pyStrip t)) cfg.get_effective_key_phrase
      = true)
    (howner : ownerTruthy cfg.OWNER_ID = true) :
    handle_message cfg ⟨some ⟨some t, d⟩, user⟩ randIdx replyCap send =
      Outcome.keyPhrase cfg.KEY_RESPONSE
        (NotifyDecision.attempted NotifyOutcome.unexpectedErrorLogged) := by
  have ht : t ≠ "" := fun h => hst (by rw [h]; exact pyStrip_empty)
  rw [handle_message_eval cfg user t d randIdx replyCap send hreply ht hst,
    if_pos hcont, if_pos howner]

/-- C5, witness: the theorem applied to the default settings, the
trigger message `"Вот QR код!"` and the always-raising send
capability. -/
theorem C5_notify_failure_contained_witness :
    handle_message cfgEx ⟨some ⟨some "Вот QR код!", none⟩, userEx⟩ 0 okReply failSend =
      Outcome.keyPhrase cfgEx.KEY_RESPONSE
        (NotifyDecision.attempted NotifyOutcome.unexpectedErrorLogged) :=
  C5_notify_failure_contained cfgEx userEx "Вот QR код!" none 0 okReply failSend
    PyError.telegramError (fun _ => rfl) (fun _ _ => rfl) (by decide) (by decide)
    (by decide)

/-! ## C6 -/

/-- Environment for the C6 counterexample: token configured, owner
absent. -/
def envC6 : Env := ⟨some "token", none, none, none, none, none, none⟩

/-- Settings with a token but no owner. -/
def cfgC6 : Config := Config.init envC6

/-- C6, counterexample.  The claim says that with a token but no owner
address the bot still starts.  In `main.py` lines 32-34 the startup
check `if not config.OWNER_ID:` returns before the application is ever
built, so the bot refuses to start: with `BOT_TOKEN` set and `OWNER_ID`
unset, `mainStartupPasses` is `false`. -/
theorem C6_owner_missing_cex :
    cfgC6.BOT_TOKEN ≠ "" ∧ cfgC6.OWNER_ID = none ∧
    mainStartupPasses cfgC6 = false :=
  ⟨by decide, by decide, by decide⟩

/-- C6, amended: if the owner address is not configured (untruthy
`OWNER_ID`), `main` refuses to start even when the token is configured;
at the handler level a trigger match would still send the trigger reply
while the notification is skipped with a logged warning. -/
theorem C6_owner_missing_amended :
    (∀ cfg : Config, ownerTruthy cfg.OWNER_ID = false →
       mainStartupPasses cfg = false) ∧
    (∀ (cfg : Config) (user : TgUser) (t : String) (d : Option Nat) (randIdx : Nat)
       (replyCap : String → Except PyError Unit)
       (send : Int → String → Except PyError Unit),
       (∀ s, replyCap s = Except.ok ()) →
       ownerTruthy cfg.OWNER_ID = false →
       pyStrip t ≠ "" →
       pyContains (cfg.normalize_text (pyStrip t)) cfg.get_effective_key_phrase = true →
       handle_message cfg ⟨some ⟨some t, d⟩, user⟩ randIdx replyCap send =
         Outcome.keyPhrase cfg.KEY_RESPONSE NotifyDecision.skippedNoOwner) := by
  refine ⟨?_, ?_⟩
  · intro cfg h
    simp [mainStartupPasses, h]
  · intro cfg user t d randIdx replyCap send hreply ho hst hc
    have ht : t ≠ "" := fun h => hst (by rw [h]; exact pyStrip_empty)
    rw [handle_message_eval cfg user t d randIdx replyCap send hreply ht hst,
      if_pos hc, if_neg (by simp [ho])]

/-- C6, witness: both parts applied to `cfgC6` and the trigger message
`"Вот QR код!"`. -/
theorem C6_owner_missing_witness :
    mainStartupPasses cfgC6 = false ∧
    handle_message cfgC6 ⟨some ⟨some "Вот QR код!", none⟩, userEx⟩ 0 okReply okSend =
      Outcome.keyPhrase cfgC6.KEY_RESPONSE NotifyDecision.skippedNoOwner :=
  ⟨C6_owner_missing_amended.1 cfgC6 (by decide),
   C6_owner_missing_amended.2 cfgC6 userEx "Вот QR код!" none 0 okReply okSend
     (fun _ => rfl) (by decide) (by decide) (by decide)⟩

/-! ## C7 -/

/-- Environment for C7: token and owner both configured. -/
def envC7 : Env := ⟨some "token", some "42", none, none, none, none, none⟩

/-- Settings with owner id 42. -/
def cfgC7 : Config := Config.init envC7

/-- A trigger message from a sender with a full profile. -/
def updC7 : TgUpdate := ⟨some ⟨some "Вот QR код", none⟩, ⟨9, "Ivan", some "Petrov", some "ivan"⟩⟩

/-- C7, failing evaluation.  The claim describes the payload dispatched
to the owner on a trigger match.  In the source, building
`notification_message` evaluates `update.message.date` in the Time
line, but `update` is not a name in scope inside `_notify_owner`
(it is a parameter of its callers only), so a `NameError` is raised and
caught by the generic `except` before `bot.send_message` is reached:
nothing is ever dispatched.  Even with a send capability that always
succeeds, the notifier ends in the logged-unexpected-error state, for
these concrete inputs and for all inputs whatsoever. -/
theorem C7_notification_never_dispatched :
    notify_owner cfgC7 updC7.user "Вот QR код" okSend =
      NotifyOutcome.unexpectedErrorLogged ∧
    (∀ (cfg : Config) (user : TgUser) (mt : String)
       (send : Int → String → Except PyError Unit),
       notify_owner cfg user mt send ≠ NotifyOutcome.sent) ∧
    handle_message cfgC7 updC7 0 okReply okSend =
      Outcome.keyPhrase cfgC7.KEY_RESPONSE
        (NotifyDecision.attempted NotifyOutcome.unexpectedErrorLogged) :=
  by
  refine ⟨rfl, ?_, by decide⟩
  intro cfg user mt send h
  rw [notify_owner_eq] at h
  cases h

/-! ## C8 -/

/-- C8: a message that is non-empty after trimming and has no trigger
match is answered with a member of the fallback pool, or with the fixed
`"Thanks for your message!"` acknowledgement when the pool is empty at
call time. -/
theorem C8_fallback_reply (cfg : Config) (user : TgUser) (t : String) (d : Option Nat)
    (randIdx : Nat) (replyCap : String → Except PyError Unit)
    (send : Int → String → Except PyError Unit)
    (hreply : ∀ s, replyCap s = Except.ok ())
    (hst : pyStrip t ≠ "")
    (hc : pyContains (cfg.normalize_text (pyStrip t)) cfg.get_effective_key_phrase
      = false) :
    ∃ r, handle_message cfg ⟨some ⟨some t, d⟩, user⟩ randIdx replyCap send =
        Outcome.regular r ∧
      (cfg.OTHER_RESPONSES ≠ [] → r ∈ cfg.OTHER_RESPONSES) ∧
      (cfg.OTHER_RESPONSES = [] → r = "Thanks for your message!") := by
  have ht : t ≠ "" := fun h => hst (by rw [h]; exact pyStrip_empty)
  rw [handle_message_eval cfg user t d randIdx replyCap send hreply ht hst,
    if_neg (by simp [hc])]
  by_cases hp : cfg.OTHER_RESPONSES = []
  · refine ⟨"Thanks for your message!", ?_, ?_, fun _ => rfl⟩
    · rw [if_neg (by simp [hp])]
    · intro h; exact absurd hp h
  · refine ⟨random_choice cfg.OTHER_RESPONSES randIdx, ?_, ?_, fun h => absurd h hp⟩
    · rw [if_pos hp]
    · intro _; exact random_choice_mem cfg.OTHER_RESPONSES randIdx hp

/-- C8, witness: the theorem applied to the default settings and the
unmatched message `"привет"`. -/
theorem C8_fallback_reply_witness :
    ∃ r, handle_message cfgEx ⟨some ⟨some "привет", none⟩, userEx⟩ 3 okReply okSend =
        Outcome.regular r ∧
      (cfgEx.OTHER_RESPONSES ≠ [] → r ∈ cfgEx.OTHER_RESPONSES) ∧
      (cfgEx.OTHER_RESPONSES = [] → r = "Thanks for your message!") :=
  C8_fallback_reply cfgEx userEx "привет" none 3 okReply okSend (fun _ => rfl)
    (by decide) (by decide)

/-! ## C9 -/

/-- C9: `get_effective_key_phrase` and `normalize_text` use identical
casing logic — both are the identity when `CASE_SENSITIVE` is true and
Python `str.lower()` otherwise, and the effective phrase is literally
the normalization of `KEY_PHRASE`; consequently, when case sensitivity
is off, two message texts with equal lower-casings (differing only in
letter case) produce identical handler outcomes, in particular the
identical trigger outcome. -/
theorem C9_casing_consistency :
    (∀ (cfg : Config) (text : String),
       cfg.normalize_text text = if cfg.CASE_SENSITIVE then text else pyLower text) ∧
    (∀ cfg : Config,
       cfg.get_effective_key_phrase = cfg.normalize_text cfg.KEY_PHRASE) ∧
    (∀ (cfg : Config) (user : TgUser) (t₁ t₂ : String) (d₁ d₂ : Option Nat)
       (randIdx : Nat) (replyCap : String → Except PyError Unit)
       (send : Int → String → Except PyError Unit),
       cfg.CASE_SENSITIVE = false →
       pyLower t₁ = pyLower t₂ →
       handle_message cfg ⟨some ⟨some t₁, d₁⟩, user⟩ randIdx replyCap send =
         handle_message cfg ⟨some ⟨some t₂, d₂⟩, user⟩ randIdx replyCap send) := by
  refine ⟨fun cfg text => rfl, fun cfg => rfl, ?_⟩
  intro cfg user t₁ t₂ d₁ d₂ randIdx replyCap send hcs heq
  by_cases h1 : pyStrip t₁ = ""
  · have h2 : pyStrip t₂ = "" := (strip_empty_lower_iff t₁ t₂ heq).mp h1
    rw [handle_message_stripped_empty cfg user t₁ d₁ randIdx replyCap send h1,
      handle_message_stripped_empty cfg user t₂ d₂ randIdx replyCap send h2]
  · have h2 : pyStrip t₂ ≠ "" := fun hh => h1 ((strip_empty_lower_iff t₁ t₂ heq).mpr hh)
    have ht1 : t₁ ≠ "" := fun hh => h1 (by rw [hh]; exact pyStrip_empty)
    have ht2 : t₂ ≠ "" := fun hh => h2 (by rw [hh]; exact pyStrip_empty)
    rw [handle_message_body_eq cfg user t₁ d₁ randIdx replyCap send ht1 h1,
      handle_message_body_eq cfg user t₂ d₂ randIdx replyCap send ht2 h2]
    have hnorm : cfg.normalize_text (pyStrip t₁) = cfg.normalize_text (pyStrip t₂) := by
      unfold Config.normalize_text
      rw [hcs]
      simp only [Bool.false_eq_true, if_false]
      exact lower_strip_eq_of_lower_eq t₁ t₂ heq
    rw [hnorm,
      handle_key_phrase_mt_irrel cfg user (pyStrip t₁) (pyStrip t₂) replyCap send]

/-- C9, witness: the outcome-equality part applied to the default
settings and the messages `"QR КОД"` and `"qr код"`. -/
theorem C9_casing_consistency_witness :
    handle_message cfgEx ⟨some ⟨some "QR КОД", none⟩, userEx⟩ 0 okReply okSend =
      handle_message cfgEx ⟨some ⟨some "qr код", none⟩, userEx⟩ 0 okReply okSend :=
  C9_casing_consistency.2.2 cfgEx userEx "QR КОД" "qr код" none none 0 okReply okSend
    (by decide) (by decide)

/-! ## C10 -/

/-- C10: construction never fails on a malformed `OWNER_ID` — a
non-empty value that `int()` rejects leaves the owner unset (`none`);
the owner is effectively configured (truthy) exactly when the raw value
parses as a non-zero integer; and a parsed value of `0` is treated as
not configured both by the startup check of `main()` and by the
notification check of `_handle_key_phrase` (a trigger match then skips
the notification with the logged warning). -/
theorem C10_owner_parse :
    (∀ (e : Env) (s : String), e.OWNER_ID = some s → s ≠ "" → pyIntParse s = none →
       (Config.init e).OWNER_ID = none) ∧
    (∀ e : Env, ownerTruthy (Config.init e).OWNER_ID = true ↔
       (∃ n : Int, pyIntParse (e.OWNER_ID.getD "") = some n ∧ n ≠ 0)) ∧
    (∀ cfg : Config, cfg.OWNER_ID = some 0 →
       mainStartupPasses cfg = false ∧ ownerTruthy cfg.OWNER_ID = false) ∧
    (∀ (cfg : Config) (user : TgUser) (t : String) (d : Option Nat) (randIdx : Nat)
       (replyCap : String → Except PyError Unit)
       (send : Int → String → Except PyError Unit),
       (∀ s, replyCap s = Except.ok ()) →
       cfg.OWNER_ID = some 0 →
       pyStrip t ≠ "" →
       pyContains (cfg.normalize_text (pyStrip t)) cfg.get_effective_key_phrase = true →
       handle_message cfg ⟨some ⟨some t, d⟩, user⟩ randIdx replyCap send =
         Outcome.keyPhrase cfg.KEY_RESPONSE NotifyDecision.skippedNoOwner) := by
  refine ⟨?_, ?_, ?_, ?_⟩
  · intro e s h1 h2 h3
    simp [Config.init, h1, h2, h3]
  · intro e
    by_cases hs : e.OWNER_ID.getD "" = ""
    · rw [hs]
      simp [Config.init, hs, ownerTruthy, pyIntParse_empty]
    · cases hp : pyIntParse (e.OWNER_ID.getD "") with
      | none => simp [Config.init, hs, hp, ownerTruthy]
      | some n =>
          simp [Config.init, hs, hp, ownerTruthy, bne_iff_ne]
  · intro cfg h
    refine ⟨?_, ?_⟩
    · simp [mainStartupPasses, ownerTruthy, h]
    · simp [ownerTruthy, h]
  · intro cfg user t d randIdx replyCap send hreply h0 hst hc
    have ht : t ≠ "" := fun h => hst (by rw [h]; exact pyStrip_empty)
    rw [handle_message_eval cfg user t d randIdx replyCap send hreply ht hst,
      if_pos hc, if_neg (by simp [ownerTruthy, h0])]

/-- Environment with a malformed owner value. -/
def envBadOwner : Env := ⟨some "token", some "abc", none, none, none, none, none⟩

/-- Environment with owner value `0`. -/
def envZeroOwner : Env := ⟨some "token", some "0", none, none, none, none, none⟩

/-- C10, witness: `OWNER_ID=abc` leaves the owner unset; `OWNER_ID=0`
and `OWNER_ID=123` decide effective configuration as claimed; owner `0`
fails the startup check and makes a trigger match skip the
notification. -/
theorem C10_owner_parse_witness :
    (Config.init envBadOwner).OWNER_ID = none ∧
    (ownerTruthy (Config.init envZeroOwner).OWNER_ID = true ↔
      (∃ n : Int, pyIntParse (envZeroOwner.OWNER_ID.getD "") = some n ∧ n ≠ 0)) ∧
    (mainStartupPasses (Config.init envZeroOwner) = false ∧
      ownerTruthy (Config.init envZeroOwner).OWNER_ID = false) ∧
    handle_message (Config.init envZeroOwner)
        ⟨some ⟨some "Вот QR код!", none⟩, userEx⟩ 0 okReply okSend =
      Outcome.keyPhrase (Config.init envZeroOwner).KEY_RESPONSE
        NotifyDecision.skippedNoOwner :=
  ⟨C10_owner_parse.1 envBadOwner "abc" rfl (by decide) (by decide),
   C10_owner_parse.2.1 envZeroOwner,
   C10_owner_parse.2.2.1 (Config.init envZeroOwner) (by decide),
   C10_owner_parse.2.2.2 (Config.init envZeroOwner) userEx "Вот QR код!" none 0
     okReply okSend (fun _ => rfl) (by decide) (by decide) (by decide)⟩

/-! ## C3 -/

/-- C3, counterexample.  The claim says the parser applies its steps "in
order until one yields a non-empty result", which entails a non-empty
pool for every raw value (the final fallbacks are non-empty pools).
But for the non-empty raw value `"[]"`, `json.loads` succeeds with the
empty list, which `isinstance`-checks as a list of strings (vacuously),
and `_parse_other_responses` returns that empty pool as-is instead of
moving on to the later steps. -/
theorem C3_parse_pool_cex :
    ("[]" : String) ≠ "" ∧ parse_other_responses "[]" = [] :=
  ⟨by decide, by decide⟩

/-- C3, amended: the parser applies the steps in order — JSON array of
strings, comma split, newline split, whole trimmed value, built-in
default — except that a successful parse as a JSON array of strings is
returned even when the resulting pool is empty, and each split step is
taken only when its delimiter occurs and the split (trimmed, empties
dropped) is non-empty; an empty raw value yields the built-in 5-entry
default pool; the claim's four concrete examples all hold. -/
theorem C3_parse_pool_amended :
    (∀ (s : String) (l : List String), s ≠ "" → parseJsonStringList s = some l →
       parse_other_responses s = l) ∧
    (∀ s : String, s ≠ "" → parseJsonStringList s = none →
       ((s.data.contains ',' = true → splitPool ',' s ≠ [] →
           parse_other_responses s = splitPool ',' s) ∧
        ((s.data.contains ',' = false ∨ splitPool ',' s = []) →
          ((s.data.contains '\n' = true → splitPool '\n' s ≠ [] →
              parse_other_responses s = splitPool '\n' s) ∧
           ((s.data.contains '\n' = false ∨ splitPool '\n' s = []) →
             (pyStrip s ≠ "" → parse_other_responses s = [pyStrip s]) ∧
             (pyStrip s = "" → parse_other_responses s = get_default_responses)))))) ∧
    (parse_other_responses "" = default_other_responses ∧
      default_other_responses.length = 5) ∧
    parse_other_responses "a,b,c" = ["a", "b", "c"] ∧
    parse_other_responses "a\nb" = ["a", "b"] ∧
    parse_other_responses "single" = ["single"] := by
  refine ⟨?_, ?_, ⟨rfl, rfl⟩, by decide, by decide, by decide⟩
  · intro s l hne hj
    unfold parse_other_responses
    simp only [if_neg hne, hj]
  · intro s hne hj
    unfold parse_other_responses
    simp only [if_neg hne, hj]
    refine ⟨?_, ?_⟩
    · intro hcomma hpool
      rw [if_pos ⟨hcomma, hpool⟩]
    · intro hdis1
      have hneg1 : ¬(s.data.contains ',' = true ∧ splitPool ',' s ≠ []) := by
        intro ⟨a, b⟩
        cases hdis1 with
        | inl h => rw [h] at a; cases a
        | inr h => exact b h
      rw [if_neg hneg1]
      refine ⟨?_, ?_⟩
      · intro hnl hpool
        rw [if_pos ⟨hnl, hpool⟩]
      · intro hdis2
        have hneg2 : ¬(s.data.contains '\n' = true ∧ splitPool '\n' s ≠ []) := by
          intro ⟨a, b⟩
          cases hdis2 with
          | inl h => rw [h] at a; cases a
          | inr h => exact b h
        rw [if_neg hneg2]
        refine ⟨?_, ?_⟩
        · intro htrim
          rw [if_pos htrim]
        · intro htrim
          rw [if_neg (by simp [htrim])]

/-- C3, witness: the JSON step applied to `'["x", "y"]'` and the
ordered-dispatch part applied to `"a,b"` (comma step), `"c\nd"`
(newline step), `"single2"` (whole-value step) and `" "` (default
step). -/
theorem C3_parse_pool_witness :
    parse_other_responses "[\"x\", \"y\"]" = ["x", "y"] ∧
    parse_other_responses "a,b" = splitPool ',' "a,b" ∧
    parse_other_responses "c\nd" = splitPool '\n' "c\nd" ∧
    parse_other_responses "single2" = [pyStrip "single2"] ∧
    parse_other_responses " " = get_default_responses :=
  ⟨C3_parse_pool_amended.1 "[\"x\", \"y\"]" ["x", "y"] (by decide) (by decide),
   (C3_parse_pool_amended.2.1 "a,b" (by decide) (by decide)).1 (by decide) (by decide),
   ((C3_parse_pool_amended.2.1 "c\nd" (by decide) (by decide)).2
     (Or.inl (by decide))).1 (by decide) (by decide),
   ((((C3_parse_pool_amended.2.1 "single2" (by decide) (by decide)).2
     (Or.inl (by decide))).2 (Or.inl (by decide))).1 (by decide)),
   ((((C3_parse_pool_amended.2.1 " " (by decide) (by decide)).2
     (Or.inl (by decide))).2 (Or.inl (by decide))).2 (by decide))⟩
